import Mathlib

/-!
Shallow embedding of the OWRX radiosonde MQTT pipeline
(`MQTT_OWRX_APRS.py`, `aprs.py`, `sondehub.py`).

Modelling conventions:
* JSON / dict numeric values are modelled as `ℚ` (the Python floats are
  idealised as exact rationals; no claim hinges on binary float rounding).
* A dict field that may be missing is `Option`; `none` means the key is
  absent.  For the dict passed to `aprs.send_telemetry` the caller
  (`on_message`) always passes every key, so there `none` models a key
  that is present with value `None`.
* Python truthiness (`if x:`) is modelled explicitly (`pyTruthyQ`,
  `pyTruthyS`), and `a or b` by `pyOrQ` / `pyOrS` (returning `b`
  verbatim when `a` is falsy, exactly like Python).
* Network transports are modelled by their observable effect (a packet
  value produced / an upload batch handed over); string rendering of
  packets is abstracted to the structured fields that enter the string.
* Python exceptions (`int(None)`, `None > 0`, ...) are modelled as an
  explicit error branch of the embedded control flow.
-/

namespace OwrxSonde

/-!  String primitives.  The core `String` functions (`trim`, `toLower`,
`splitOn`, ...) are defined by well-founded recursion over byte positions and
do not reduce inside the kernel, so the Python string operations are embedded
here structurally over `String.data : List Char` with identical semantics. -/

/-- `str.lower()` (ASCII, as produced by this decoder). -/
def pyLower (s : String) : String :=
  String.mk (s.data.map Char.toLower)

/-- `str.upper()`. -/
def pyUpper (s : String) : String :=
  String.mk (s.data.map Char.toUpper)

/-- `str.strip()`. -/
def pyStrip (s : String) : String :=
  String.mk (((s.data.dropWhile Char.isWhitespace).reverse.dropWhile
    Char.isWhitespace).reverse)

/-- `str.startswith(p)`. -/
def pyStartsWith (s p : String) : Bool :=
  List.isPrefixOf p.data s.data

/-- `c in s` for a single character. -/
def pyContains (s : String) (c : Char) : Bool :=
  s.data.contains c

/-- `len(s) == 0`. -/
def pyIsEmpty (s : String) : Bool :=
  s.data.isEmpty

/-- `s[:n]`. -/
def pyTake (s : String) (n : ℕ) : String :=
  String.mk (s.data.take n)

/-- `s[n:]`. -/
def pyDrop (s : String) (n : ℕ) : String :=
  String.mk (s.data.drop n)

/-- `s[-n:]`: the last at most `n` characters. -/
def pyTakeRight (s : String) (n : ℕ) : String :=
  String.mk (s.data.drop (s.data.length - n))

/-- `str.split(sep)` for a one-character separator: always a nonempty list. -/
def lcSplit (sep : Char) : List Char → List (List Char)
  | [] => [[]]
  | ch :: rest =>
    match lcSplit sep rest with
    | [] => [[ch]]
    | g :: gs => if ch = sep then [] :: g :: gs else (ch :: g) :: gs

/-- `sep.join(groups)` for a one-character separator. -/
def lcJoin (sep : Char) : List (List Char) → List Char
  | [] => []
  | [g] => g
  | g :: gs => g ++ sep :: lcJoin sep gs

/-- `str.split(sep)` on strings. -/
def pySplit (s : String) (sep : Char) : List String :=
  (lcSplit sep s.data).map String.mk

/-- Python truthiness of an optional number: `None` and `0` are falsy. -/
def pyTruthyQ : Option ℚ → Bool
  | none => false
  | some q => decide (q ≠ 0)

/-- Python `a or b` on optional numbers: returns `b` (whatever it is) when `a` is falsy. -/
def pyOrQ (a b : Option ℚ) : Option ℚ :=
  if pyTruthyQ a then a else b

/-- Python truthiness of an optional string: `None` and `""` are falsy. -/
def pyTruthyS : Option String → Bool
  | none => false
  | some s => !pyIsEmpty s

/-- Python `a or b` on optional strings. -/
def pyOrS (a b : Option String) : Option String :=
  if pyTruthyS a then a else b

/-- Python `d.get(k, default)` where the fallback is itself optional:
the first operand when present (key in dict), else the second. -/
def getOr {α : Type} : Option α → Option α → Option α
  | some v, _ => some v
  | none, d => d

/-- Python `int(x)` on a number: truncation toward zero. -/
def pyInt (q : ℚ) : ℤ :=
  if 0 ≤ q then ⌊q⌋ else -⌊-q⌋

/-- Python `round(x)`: round half to even, to an integer. -/
def pyRound (q : ℚ) : ℤ :=
  let f : ℤ := ⌊q⌋
  let r : ℚ := q - f
  if r < 1/2 then f
  else if 1/2 < r then f + 1
  else if Even f then f else f + 1

/-- Python `round(x, 1)`: round half to even at one decimal. -/
def pyRound1 (q : ℚ) : ℚ :=
  (pyRound (q * 10) : ℚ) / 10

/-- Association-list lookup (models Python dict read). -/
def alookup {κ α : Type} [DecidableEq κ] : List (κ × α) → κ → Option α
  | [], _ => none
  | (k, v) :: rest, key => if k = key then some v else alookup rest key

/-- Association-list write (models Python dict assignment). -/
def aset {κ α : Type} [DecidableEq κ] (m : List (κ × α)) (k : κ) (v : α) : List (κ × α) :=
  (k, v) :: m.filter (fun p => p.1 ≠ k)

/-- Association-list delete (models Python `del d[k]`). -/
def adel {κ α : Type} [DecidableEq κ] (m : List (κ × α)) (k : κ) : List (κ × α) :=
  m.filter (fun p => p.1 ≠ k)

/-!  ## Data model: the raw MQTT message (`on_message` input)  -/

/-- The nested `raw["data"]` field bag of one decoder message.
`weather_temperature` / `weather_humidity` model
`data.get("weather", {}).get("temperature" / "humidity")`. -/
structure RawData where
  type : Option String := none
  subtype : Option String := none
  aprsid : Option String := none
  rawid : Option String := none
  id : Option String := none
  vel_h : Option ℚ := none
  vel_v : Option ℚ := none
  tx_frequency : Option ℚ := none
  lat : Option ℚ := none
  lon : Option ℚ := none
  alt : Option ℚ := none
  heading : Option ℚ := none
  sats : Option ℚ := none
  temp : Option ℚ := none
  humidity : Option ℚ := none
  weather_temperature : Option ℚ := none
  weather_humidity : Option ℚ := none
  frame : Option ℚ := none
  batt : Option ℚ := none
  battery : Option ℚ := none
deriving Repr, DecidableEq

/-- One decoded MQTT payload (top level of the JSON object). -/
structure RawMsg where
  mode : Option String := none
  source : Option String := none
  timestamp : Option ℤ := none
  speed : Option ℚ := none
  vspeed : Option ℚ := none
  freq : Option ℚ := none
  lat : Option ℚ := none
  lon : Option ℚ := none
  altitude : Option ℚ := none
  course : Option ℚ := none
  sats : Option ℚ := none
  data : RawData := {}
deriving Repr, DecidableEq

/-- One persisted observation row (the `Radiosonda` model). -/
structure Radiosonda where
  lat : Option ℚ
  lon : Option ℚ
  alt : Option ℚ
  speed : Option ℚ
  dir : Option ℚ
  type : Option String
  ser : String
  time : ℤ
  sats : Option ℚ
  freq : Option ℚ
  rssi : Option ℚ
  vs : Option ℚ
  hs : Option ℚ
  climb : Option ℚ
  temp : Option ℚ
  humidity : Option ℚ
  frame : Option ℚ
  vframe : ℤ
  launchsite : Option String
  batt : Option ℚ
deriving Repr, DecidableEq

/-- Module-level mutable state of `MQTT_OWRX_APRS.py`:
`dfm_id_cache`, `sonde_freq_cache` and the SQL table (most recent row first). -/
structure PipeState where
  dfm_id_cache : List (String × String)
  sonde_freq_cache : List (String × ℚ)
  db : List Radiosonda
deriving Repr, DecidableEq

/-!  ## Identity resolution (`on_message`, lines 159-217)  -/

/-- `clean_subtype`: strip everything up to the first colon. -/
def clean_subtype (subtype : Option String) : Option String :=
  match subtype with
  | none => none
  | some s =>
    if pyIsEmpty s then none
    else if pyContains s ':' then
      some (String.mk (lcJoin ':' (lcSplit ':' s.data).tail))
    else some s

/-- `source_key = raw.get("source") or data.get("rawid") or data.get("id")`. -/
def sourceKeyOf (raw : RawMsg) : Option String :=
  pyOrS (pyOrS raw.source raw.data.rawid) raw.data.id

/-- `''.join(filter(str.isdigit, s))`. -/
def dfmDigits (s : String) : String :=
  String.mk (s.toList.filter Char.isDigit)

/-- The M20 branch: `rawid.split("_")[1][:2]` and `id.split("-")[-1][-5:]`;
the IndexError on a rawid without `_` is the swallowed parse failure. -/
def m20Ser (d : RawData) : Option String :=
  match d.rawid, d.id with
  | some rid, some i =>
    let parts := pySplit rid '_'
    match parts.get? 1 with
    | none => none
    | some second =>
      let raw_part := pyTake second 2
      let id_suffix := pyTakeRight ((((pySplit i '-').getLast?).getD "")) 5
      some ("ME" ++ raw_part ++ id_suffix)
  | _, _ => none

/-- The placeholder / invalid DFM id filter of `on_message` (lines 206-217),
re-applied verbatim in `aprs.send_telemetry` (lines 139-150). -/
def isPlaceholder (ser : String) : Bool :=
  let s := pyLower (pyStrip ser)
  s = "d" ||
    ((pyStartsWith s "dfm-" || pyStartsWith s "d-" || pyStartsWith s "d") &&
      pyContains s 'x')

/-- Result of identity resolution: the serial (if any) and the updated DFM cache. -/
structure ResolveOut where
  ser : Option String
  cache : List (String × String)
deriving Repr, DecidableEq

/-- Lines 163-165 of `on_message`:
`if sonde_type != "DFM" and source_key in dfm_id_cache: del dfm_id_cache[source_key]`. -/
def evictNonDfm (cache : List (String × String)) (raw : RawMsg) : List (String × String) :=
  match sourceKeyOf raw with
  | some k =>
    if raw.data.type ≠ some "DFM" ∧ (alookup cache k).isSome then adel cache k else cache
  | none => cache

/-- Lines 167-197 of `on_message`: the aprsid / M20 / DFM priority chain,
producing `ser_value` and the possibly extended DFM cache. -/
def serStep (cache1 : List (String × String)) (raw : RawMsg) :
    Option String × List (String × String) :=
  let data := raw.data
  let source_key := sourceKeyOf raw
  if pyTruthyS data.aprsid then (data.aprsid, cache1)
  else if data.type = some "M20" ∧ data.rawid.isSome ∧ data.id.isSome then
    (m20Ser data, cache1)
  else if data.type = some "DFM" then
    if data.id.isSome ∧ pyTruthyS data.id then
      let dfm_num := dfmDigits (data.id.getD "")
      let ser := "D" ++ dfm_num
      -- if source_key and ser_value and ser_value != "D": cache it
      if pyTruthyS source_key ∧ ser ≠ "D" then
        (some ser, aset cache1 (source_key.getD "") ser)
      else (some ser, cache1)
    else
      match source_key with
      | some k =>
        (match alookup cache1 k with
         | some v => (some v, cache1)
         | none => (none, cache1))
      | none => (none, cache1)
  else (none, cache1)

/-- Lines 159-201 of `on_message`: DFM cache eviction, the
aprsid / M20 / DFM priority chain, and the generic fallback. -/
def resolveSer (cache : List (String × String)) (raw : RawMsg) : ResolveOut :=
  let step := serStep (evictNonDfm cache raw) raw
  -- if not ser_value: ser_value = data.get("id") or raw.get("source")
  { ser := if pyTruthyS step.1 then step.1 else pyOrS raw.data.id raw.source
    cache := step.2 }

/-!  ## Observation normalisation and persistence (`on_message`, lines 220-325)  -/

/-- `Radiosonda.query.filter_by(ser=..., vframe=...).first()`: the duplicate probe. -/
def findDup (db : List Radiosonda) (ser : String) (vframe : ℤ) : Option Radiosonda :=
  db.find? (fun o => o.ser == ser && o.vframe == vframe)

/-- `Radiosonda.query.filter_by(ser=...).order_by(Radiosonda.vframe.desc()).first()`:
the row with the largest `vframe` for this serial. -/
def latestBySer (db : List Radiosonda) (ser : String) : Option Radiosonda :=
  db.foldl
    (fun acc o =>
      if o.ser = ser then
        match acc with
        | none => some o
        | some b => if o.vframe > b.vframe then some o else some b
      else acc)
    none

/-- `freq_rx = raw.get("freq", data.get("tx_frequency")) or raw.get("freq")`. -/
def freqRx (raw : RawMsg) : Option ℚ :=
  pyOrQ (getOr raw.freq raw.data.tx_frequency) raw.freq

/-- Lines 234-282 of `on_message`: build the `Radiosonda` row for an accepted
message, returning it with the updated `sonde_freq_cache`. -/
def buildEntry (db : List Radiosonda) (fcache : List (String × ℚ)) (raw : RawMsg)
    (ser_value : String) (ts vframe_value : ℤ) : Radiosonda × List (String × ℚ) :=
  let data := raw.data
  let hs_ms := getOr raw.speed data.vel_h
  let vs_ms := getOr raw.vspeed data.vel_v
  let hs_kmh := hs_ms.map (fun v => pyRound1 (v / (18/5 : ℚ)))
  let climb_1d := vs_ms.map pyRound1
  let freq_rx := freqRx raw
  -- sticky per-serial frequency
  let freqPair : Option ℚ × List (String × ℚ) :=
    match alookup fcache ser_value with
    | some f => (some f, fcache)
    | none =>
      let freq_final := freq_rx
      if pyTruthyQ freq_final then
        (freq_final, aset fcache ser_value (freq_final.getD 0))
      else (freq_final, fcache)
  let real_id := data.id
  let sonde_model := clean_subtype data.subtype
  -- if sonde_type == "RS41" and sonde_model and sonde_model.startswith("RS41")
  let sonde_type1 :=
    if data.type = some "RS41" ∧ pyTruthyS sonde_model ∧
        (pyStartsWith (sonde_model.getD "") "RS41") then
      sonde_model
    else data.type
  -- keep last known RS41 subtype for this sonde (store lookback)
  let sonde_type2 :=
    if sonde_type1 = some "RS41" ∧ ¬pyIsEmpty ser_value then
      match latestBySer db ser_value with
      | some last =>
        (match last.type with
         | some t => if ¬pyIsEmpty t ∧ pyStartsWith t "RS41-" then some t else sonde_type1
         | none => sonde_type1)
      | none => sonde_type1
    else sonde_type1
  let entry : Radiosonda :=
    { lat := getOr raw.lat data.lat
      lon := getOr raw.lon data.lon
      alt := getOr raw.altitude data.alt
      speed := hs_kmh
      dir := getOr raw.course data.heading
      type := if sonde_type2 = some "DFM" then sonde_model else sonde_type2
      ser := ser_value
      time := ts
      sats := getOr raw.sats data.sats
      freq := freqPair.1
      rssi := none
      vs := vs_ms
      hs := getOr raw.speed data.vel_h
      climb := climb_1d
      temp := pyOrQ data.temp data.weather_temperature
      humidity := pyOrQ data.humidity data.weather_humidity
      frame := data.frame
      vframe := vframe_value
      launchsite := real_id
      batt := pyOrQ data.batt data.battery }
  (entry, freqPair.2)

/-!  ## Sink fan-out (`on_message`, lines 290-319)  -/

/-- The dict `on_message` passes to `aprs.send_telemetry`.  Every key is always
passed, so a `none` field models a key present with value `None`. -/
structure AprsData where
  ser : Option String
  lat : Option ℚ
  lon : Option ℚ
  alt : Option ℚ
  time : Option ℤ
  dir : Option ℚ
  speed : Option ℚ
  climb : Option ℚ
  temp : Option ℚ
  humidity : Option ℚ
  batt : Option ℚ
  freq : Option ℚ
  type : Option String
deriving Repr, DecidableEq

/-- The argument dict built at lines 290-304. -/
def aprsDataOf (e : Radiosonda) : AprsData :=
  { ser := some e.ser, lat := e.lat, lon := e.lon, alt := e.alt, time := some e.time
    dir := e.dir, speed := e.speed, climb := e.climb, temp := e.temp
    humidity := e.humidity, batt := e.batt, freq := e.freq, type := e.type }

/-- Serial types whose serial is used raw by `get_sondehub_serial`. -/
def isRawSerialType : Option String → Bool
  | some t => !pyIsEmpty t &&
      (pyStartsWith (pyUpper t) "RS41" || pyStartsWith (pyUpper t) "RS41-SG" ||
       pyStartsWith (pyUpper t) "RS41-SGP" || pyStartsWith (pyUpper t) "RS92")
  | none => false

/-- `get_sondehub_serial` from `MQTT_OWRX_APRS.py` (the type test models
`entry.type and entry.type.upper().startswith((...))`). -/
def get_sondehub_serial (e : Radiosonda) : Option String :=
  if isRawSerialType e.type then
    some e.ser
  else
    let raw := pyStrip ((pyOrS (pyOrS e.launchsite (some e.ser)) (some "")).getD "")
    if pyStartsWith raw "M10-" then some (pyDrop raw 4)
    else if pyStartsWith raw "M20-" then some (pyDrop raw 4)
    else if pyStartsWith raw "DFM06-" then some (pyDrop raw 6)
    else if pyStartsWith raw "DFM09-" then some (pyDrop raw 6)
    else if pyStartsWith raw "DFM17-" then some (pyDrop raw 6)
    else if pyStartsWith raw "DFM-" then some (pyDrop raw 4)
    else if pyStartsWith raw "PS15-" then some (pyDrop raw 5)
    else if pyStartsWith raw "PS-15-" then some (pyDrop raw 6)
    else if pyStartsWith raw "D-" then some (pyDrop raw 2)
    else if pyStartsWith raw "D" ∧ ¬pyIsEmpty (pyDrop raw 1) ∧
        (pyDrop raw 1).data.all Char.isDigit then some (pyDrop raw 1)
    else if (match raw.toList with | c :: _ => c.isDigit | [] => false) then some raw
    else none

/-- Observable effects of processing one message. -/
inductive Event where
  | stored (o : Radiosonda)
  | aprsDispatch (d : AprsData)
  | sondehubDispatch (serial : String) (frame : ℤ)
deriving Repr, DecidableEq

/-- The SondeHub leg of `on_message` (lines 306-319) together with
`format_sondehub_packet`'s gating: the packet is `None` (no dispatch) when
`get_sondehub_serial` fails, and `int(entry.frame)` raises (aborting with no
dispatch) when `frame` is absent. -/
def shEvents (shEnabled : Bool) (e : Radiosonda) : List Event :=
  if shEnabled ∧ pyTruthyQ e.lat ∧ pyTruthyQ e.lon ∧ pyTruthyQ e.alt ∧
      e.time ≠ 0 ∧ ¬pyIsEmpty e.ser then
    match get_sondehub_serial e with
    | none => []
    | some serial =>
      match e.frame with
      | none => []
      | some f => [Event.sondehubDispatch serial (pyInt f)]
  else []

/-- `on_message`: the whole per-message pipeline as a state transition with an
event trace (`nowMs` models `int(time.time() * 1000)`). -/
def onMessage (shEnabled : Bool) (st : PipeState) (raw : RawMsg) (nowMs : ℤ) :
    PipeState × List Event :=
  if raw.mode ≠ some "SONDE" then (st, [])
  else
    let r := resolveSer st.dfm_id_cache raw
    let st1 : PipeState := ⟨r.cache, st.sonde_freq_cache, st.db⟩
    if ¬pyTruthyS r.ser then (st1, [])
    else
      let ser_value := r.ser.getD ""
      if isPlaceholder ser_value then (st1, [])
      else
        let ts_raw := raw.timestamp.getD nowMs
        let ts := Int.fdiv ts_raw 1000
        let vframe_value := ts_raw
        if (findDup st1.db ser_value vframe_value).isSome then (st1, [])
        else
          let p := buildEntry st1.db st1.sonde_freq_cache raw ser_value ts vframe_value
          let st2 : PipeState := ⟨st1.dfm_id_cache, p.2, p.1 :: st1.db⟩
          (st2, Event.stored p.1 :: Event.aprsDispatch (aprsDataOf p.1) ::
            shEvents shEnabled p.1)

/-!  ## The beacon sink: `aprs.py` `send_telemetry`

State and configuration of the module; the socket is modelled by whether a
live session exists, `connectOk` models whether `_connect()` would succeed
on this call.  Python `TypeError`s on `None` (`int(None)`, `None * x`,
`round(None, 1)`, `None > 0`) are the modelled exception paths; the
`except` handler closes and nulls the socket. -/

structure AprsCfg where
  upload : Bool
  beaconEnable : Bool
  beaconInterval : ℚ
  interval : ℚ
deriving Repr, DecidableEq

structure AprsState where
  sock : Bool
  last_beacon : ℚ
  last_sent : List (String × ℚ)
deriving Repr, DecidableEq

/-- The semantic content of one emitted APRS object packet (string
rendering of lines 193-200 is abstracted to the fields that enter it). -/
structure AprsPacket where
  payload_id : String
  course : ℤ
  speed_kn : ℤ
  alt_ft : ℤ
  climb_val : ℚ
  temp_com : Option ℚ
  hum_com : Option ℚ
  freq_shown : Bool
  type_com : Option String
deriving Repr, DecidableEq

structure AprsResult where
  telemetry : Option AprsPacket
  beaconSent : Bool
  errored : Bool
deriving Repr, DecidableEq

/-- `aprs.send_telemetry` from the serial extraction (line 134) onward:
the placeholder filter, the required-field check, the per-serial rate limit,
the packet build and the `TypeError` / teardown paths for `None`
dir / speed / climb / freq values.  `st2` is the state after the connect and
beacon steps; `beaconDue` records whether the beacon fired. -/
def aprsCore (cfg : AprsCfg) (st2 : AprsState) (data : AprsData) (now : ℚ)
    (beaconDue : Bool) : AprsState × AprsResult :=
  match data.ser with
  | none => (st2, ⟨none, beaconDue, false⟩)
  | some ser =>
    if pyIsEmpty ser then (st2, ⟨none, beaconDue, false⟩)
    else if isPlaceholder ser then (st2, ⟨none, beaconDue, false⟩)
    else
      match data.dir with
      | none =>
        -- course_val = int(data.get("dir", 0)) % 360 raises TypeError on None
        ({ st2 with sock := false }, ⟨none, beaconDue, true⟩)
      | some dirv =>
        let course_val := (pyInt dirv) % 360
        let payload_id := pyTake ser 9
        if data.lat = none ∨ data.lon = none ∨ data.alt = none ∨ data.time = none then
          (st2, ⟨none, beaconDue, false⟩)
        else
          let last := (alookup st2.last_sent ser).getD 0
          if now - last < cfg.interval then (st2, ⟨none, beaconDue, false⟩)
          else
            let st3 := { st2 with last_sent := aset st2.last_sent ser now }
            let alt_ft := pyInt ((data.alt.getD 0) * (328084/100000 : ℚ))
            match data.speed with
            | none =>
              -- speed_ms * 1.94384 raises TypeError on None
              ({ st3 with sock := false }, ⟨none, beaconDue, true⟩)
            | some sp =>
              let speed_kn := pyRound (sp * (194384/100000 : ℚ))
              match data.climb with
              | none =>
                -- round(climb, 1) raises TypeError on None
                ({ st3 with sock := false }, ⟨none, beaconDue, true⟩)
              | some cl =>
                let climb_val := pyRound1 cl
                match data.freq with
                | none =>
                  -- `freq > 0` raises TypeError on None
                  ({ st3 with sock := false }, ⟨none, beaconDue, true⟩)
                | some fq =>
                  let pkt : AprsPacket :=
                    { payload_id := payload_id
                      course := course_val
                      speed_kn := speed_kn
                      alt_ft := alt_ft
                      climb_val := climb_val
                      temp_com := data.temp
                      hum_com := data.humidity
                      freq_shown := decide (0 < fq)
                      type_com :=
                        if pyTruthyS data.type then data.type else none }
                  (st3, ⟨some pkt, beaconDue, false⟩)

/-- `aprs.send_telemetry` (aprs.py lines 114-212): the `APRS_UPLOAD` guard,
the lazy `_connect` (whose success this call's `connectOk` models), the
opportunistic `_send_beacon` gated by its own interval, then `aprsCore`. -/
def aprsSendTelemetry (cfg : AprsCfg) (connectOk : Bool) (st : AprsState)
    (data : AprsData) (now : ℚ) : AprsState × AprsResult :=
  if ¬cfg.upload then (st, ⟨none, false, false⟩)
  else if ¬st.sock ∧ ¬connectOk then
    -- _connect() raised; handler leaves the socket nulled
    ({ st with sock := false }, ⟨none, false, true⟩)
  else
    let st1 : AprsState := { st with sock := true }
    -- _send_beacon(): gated by its own interval timer
    if cfg.beaconEnable ∧ cfg.beaconInterval ≤ now - st1.last_beacon then
      aprsCore cfg { st1 with last_beacon := now } data now true
    else
      aprsCore cfg st1 data now false

/-!  ## The aggregator sink: `sondehub.py`  -/

/-- The fields of a SondeHub packet that `send_telemetry` reads
(`packet.get("serial")`, `packet.get("frame")`). -/
structure SHPacket where
  serial : Option String
  frame : Option ℤ
deriving Repr, DecidableEq

/-- Module state of `sondehub.py`: the `(serial, frame)` dedup set and the
per-serial queues. -/
structure SHState where
  recent : Finset (Option String × Option ℤ)
  queues : List (Option String × List SHPacket)
deriving DecidableEq

/-- `sondehub.send_telemetry` (sondehub.py lines 201-232): dedup on
`(serial, frame)`, hard reset of the set past 5000 entries, enqueue and
immediate per-serial drain.  The returned batch is what is handed to
`SondeHubUploader.upload_telemetry` (`none` = no HTTP call made). -/
def shSendTelemetry (uploaderPresent : Bool) (st : SHState) (p : SHPacket) :
    SHState × Option (List SHPacket) :=
  if ¬uploaderPresent then (st, none)
  else
    let key := (p.serial, p.frame)
    if key ∈ st.recent then (st, none)
    else
      let recent1 := insert key st.recent
      let recent2 := if 5000 < recent1.card then (∅ : Finset _) else recent1
      let q := (alookup st.queues p.serial).getD []
      let batch := q ++ [p]
      let queues1 := aset st.queues p.serial []
      if batch.isEmpty then (⟨recent2, queues1⟩, none)
      else (⟨recent2, queues1⟩, some batch)

/-- Outcome of one `requests.put` attempt. -/
inductive HttpOutcome where
  | exc
  | status (code : ℕ)
deriving Repr, DecidableEq

/-- Outcomes on which the station retry loop `continue`s: an exception or a
5xx answer. -/
def isRetriable : HttpOutcome → Bool
  | HttpOutcome.exc => true
  | HttpOutcome.status c => decide (500 ≤ c)

inductive StationResult where
  | uploaded
  | unexpectedStatus (code : ℕ)
  | failedAllRetries
deriving Repr, DecidableEq

/-- The retry loop of `SondeHubUploader.upload_station` (lines 93-119):
`fuel` attempts remain, `used` HTTP calls were already made; exceptions and
5xx answers `continue`, 200 succeeds, anything else returns at once.
Returns the number of HTTP calls made and the outcome. -/
def uploadStationGo (outcomes : ℕ → HttpOutcome) : ℕ → ℕ → ℕ × StationResult
  | 0, used => (used, StationResult.failedAllRetries)
  | fuel + 1, used =>
    match outcomes used with
    | HttpOutcome.exc => uploadStationGo outcomes fuel (used + 1)
    | HttpOutcome.status c =>
      if c = 200 then (used + 1, StationResult.uploaded)
      else if 500 ≤ c then uploadStationGo outcomes fuel (used + 1)
      else (used + 1, StationResult.unexpectedStatus c)

/-- `upload_station`'s attempt loop, `for attempt in range(self.retries)`. -/
def uploadStation (retries : ℕ) (outcomes : ℕ → HttpOutcome) : ℕ × StationResult :=
  uploadStationGo outcomes retries 0

inductive TelemetryResult where
  | uploadedOk (code : ℕ)
  | failedStatus (code : ℕ)
  | exceptionLogged
deriving Repr, DecidableEq

/-- One per-serial batch inside `SondeHubUploader.upload_telemetry`
(lines 140-162): a single `requests.put`, its exception caught and logged,
200 / 400 / 409 logged as uploaded, anything else logged as failed.
Returns the number of HTTP calls made and the outcome. -/
def uploadTelemetryBatch (outcome : HttpOutcome) : ℕ × TelemetryResult :=
  match outcome with
  | HttpOutcome.exc => (1, TelemetryResult.exceptionLogged)
  | HttpOutcome.status c =>
    if c = 200 ∨ c = 400 ∨ c = 409 then (1, TelemetryResult.uploadedOk c)
    else (1, TelemetryResult.failedStatus c)

/-!  ## Concrete instances used by counterexamples and witnesses  -/

/-- The empty start state of the pipeline. -/
def stInit : PipeState := ⟨[], [], []⟩

/-- A well-formed RS41 message (witness input). -/
def rawRS41 : RawMsg :=
  { mode := some "SONDE", source := some "abc", timestamp := some 1700000000000,
    lat := some 45, lon := some 16, altitude := some 1000, freq := some 403000000,
    data := { type := some "RS41", id := some "X1234567", frame := some 100 } }

/-- First message of the frequency-zero scenario: carrier frequency present and `0`. -/
def rawFreqZero1 : RawMsg :=
  { mode := some "SONDE", timestamp := some 1000, freq := some 0,
    data := { id := some "RS999" } }

/-- Second message of the frequency-zero scenario: same serial, frequency absent. -/
def rawFreqZero2 : RawMsg :=
  { mode := some "SONDE", timestamp := some 2000, data := { id := some "RS999" } }

/-- A message whose temperature is present and exactly `0`. -/
def rawTempZero : RawMsg :=
  { mode := some "SONDE", timestamp := some 1000,
    data := { id := some "RS998", temp := some 0 } }

/-- A message whose temperature is present and nonzero. -/
def rawTempFive : RawMsg :=
  { mode := some "SONDE", timestamp := some 1000,
    data := { id := some "RS998", temp := some 5 } }

/-- A DFM message whose id is an unfilled decoder mask. -/
def rawDfmMask : RawMsg :=
  { mode := some "SONDE", source := some "abc", timestamp := some 1000,
    data := { type := some "DFM", id := some "DFM-xxxxxxxx" } }

/-- A DFM message carrying a real id. -/
def rawDfmGood : RawMsg :=
  { mode := some "SONDE", source := some "abc", timestamp := some 1700000000000,
    data := { type := some "DFM", id := some "DFM09-1234X", subtype := some "DFM:DFM09" } }

/-- A DFM message from the same source key with the id field absent. -/
def rawDfmNoId : RawMsg :=
  { mode := some "SONDE", source := some "abc", timestamp := some 1700000001000,
    data := { type := some "DFM" } }

/-- A non-DFM message from the source key `"abc"`. -/
def rawNonDfm : RawMsg :=
  { mode := some "SONDE", source := some "abc", timestamp := some 1000,
    data := { type := some "RS41", id := some "X1" } }

/-- Witness APRS configuration: upload on, beacon off, 20 s interval. -/
def cfgAprs : AprsCfg := ⟨true, false, 600, 20⟩

/-- Witness APRS state: live session, nothing sent yet. -/
def stAprs : AprsState := ⟨true, 0, []⟩

/-- Witness telemetry dict, as `on_message` would pass it. -/
def dataAprs : AprsData :=
  { ser := some "X1234567", lat := some 45, lon := some 16, alt := some 1000,
    time := some 1700000000, dir := some 90, speed := some 10, climb := some (-5),
    temp := none, humidity := none, batt := none, freq := some 403000000,
    type := some "RS41" }

/-- Witness APRS state with a send recorded for `X1234567` at t = 90. -/
def stAprsSent : AprsState := ⟨true, 0, [("X1234567", 90)]⟩

/-- Witness outcome schedule: one 503, then 200. -/
def outcomesW : ℕ → HttpOutcome :=
  fun n => if n = 0 then HttpOutcome.status 503 else HttpOutcome.status 200

/-!  ## Helper lemmas about the embedded pipeline  -/

@[simp] theorem alookup_aset_self {κ α : Type} [DecidableEq κ]
    (m : List (κ × α)) (k : κ) (v : α) : alookup (aset m k v) k = some v := by
  simp [aset, alookup]

@[simp] theorem alookup_adel_self {κ α : Type} [DecidableEq κ]
    (m : List (κ × α)) (k : κ) : alookup (adel m k) k = none := by
  induction m with
  | nil => rfl
  | cons p rest ih =>
    by_cases h : p.1 = k
    · simp [adel, List.filter, h] at ih ⊢
      simpa [adel] using ih
    · simpa [adel, List.filter, h, alookup] using ih

theorem pyTruthyS_some (s : String) : pyTruthyS (some s) = !pyIsEmpty s := rfl

/-- Every branch of `on_message` past mode filtering carries the resolver's
updated DFM cache into the final state. -/
theorem onMessage_dfm_cache (sh : Bool) (st : PipeState) (raw : RawMsg) (nowMs : ℤ)
    (hmode : raw.mode = some "SONDE") :
    (onMessage sh st raw nowMs).1.dfm_id_cache = (resolveSer st.dfm_id_cache raw).cache := by
  unfold onMessage
  rw [hmode]
  simp only [ne_eq, not_true_eq_false, if_false]
  split
  · rfl
  · split
    · rfl
    · split
      · rfl
      · rfl

/-- `on_message` on an accepted (mode SONDE, resolvable, non-placeholder,
non-duplicate) message: the stored row, the updated caches and the event
trace, in dispatch order. -/
theorem onMessage_accepted (sh : Bool) (st : PipeState) (raw : RawMsg) (nowMs : ℤ)
    (s : String)
    (hmode : raw.mode = some "SONDE")
    (hser : (resolveSer st.dfm_id_cache raw).ser = some s)
    (hs : pyIsEmpty s = false)
    (hp : isPlaceholder s = false)
    (hdup : findDup st.db s (raw.timestamp.getD nowMs) = none) :
    onMessage sh st raw nowMs =
      (⟨(resolveSer st.dfm_id_cache raw).cache,
        (buildEntry st.db st.sonde_freq_cache raw s
          (Int.fdiv (raw.timestamp.getD nowMs) 1000) (raw.timestamp.getD nowMs)).2,
        (buildEntry st.db st.sonde_freq_cache raw s
          (Int.fdiv (raw.timestamp.getD nowMs) 1000) (raw.timestamp.getD nowMs)).1 :: st.db⟩,
       Event.stored (buildEntry st.db st.sonde_freq_cache raw s
          (Int.fdiv (raw.timestamp.getD nowMs) 1000) (raw.timestamp.getD nowMs)).1 ::
       Event.aprsDispatch (aprsDataOf (buildEntry st.db st.sonde_freq_cache raw s
          (Int.fdiv (raw.timestamp.getD nowMs) 1000) (raw.timestamp.getD nowMs)).1) ::
       shEvents sh (buildEntry st.db st.sonde_freq_cache raw s
          (Int.fdiv (raw.timestamp.getD nowMs) 1000) (raw.timestamp.getD nowMs)).1) := by
  unfold onMessage
  rw [hmode]
  simp only [ne_eq, not_true_eq_false, if_false, hser, pyTruthyS_some, hs,
    Bool.not_false, Option.getD_some, hp, Bool.false_eq_true, if_false,
    if_true, not_true_eq_false, Bool.not_true]
  simp only [hdup, Option.isSome_none, Bool.false_eq_true, if_false]

/-- `on_message` on a duplicate message: unchanged database, no events. -/
theorem onMessage_duplicate (sh : Bool) (st : PipeState) (raw : RawMsg) (nowMs : ℤ)
    (s : String)
    (hmode : raw.mode = some "SONDE")
    (hser : (resolveSer st.dfm_id_cache raw).ser = some s)
    (hs : pyIsEmpty s = false)
    (hp : isPlaceholder s = false)
    (hdup : (findDup st.db s (raw.timestamp.getD nowMs)).isSome) :
    onMessage sh st raw nowMs =
      (⟨(resolveSer st.dfm_id_cache raw).cache, st.sonde_freq_cache, st.db⟩, []) := by
  unfold onMessage
  rw [hmode]
  simp only [ne_eq, not_true_eq_false, if_false, hser, pyTruthyS_some, hs,
    Bool.not_false, Option.getD_some, hp, Bool.false_eq_true, if_false,
    if_true, not_true_eq_false, Bool.not_true]
  simp only [hdup, if_true]

/-- The priority chain does not touch the cache when the type is not DFM. -/
theorem serStep_cache_nonDFM (c : List (String × String)) (raw : RawMsg)
    (htype : raw.data.type ≠ some "DFM") : (serStep c raw).2 = c := by
  unfold serStep
  by_cases h1 : pyTruthyS raw.data.aprsid = true
  · simp [h1]
  · by_cases h2 : raw.data.type = some "M20" ∧ raw.data.rawid.isSome = true ∧
        raw.data.id.isSome = true
    · simp [h1, h2]
    · simp [h1, h2, htype]

/-- The priority chain does not touch the cache on a DFM message with no id. -/
theorem serStep_cache_dfm_noid (c : List (String × String)) (raw : RawMsg)
    (htype : raw.data.type = some "DFM") (hid : raw.data.id = none) :
    (serStep c raw).2 = c := by
  unfold serStep
  by_cases h1 : pyTruthyS raw.data.aprsid = true
  · simp [h1]
  · have h2 : ¬(raw.data.type = some "M20" ∧ raw.data.rawid.isSome = true ∧
        raw.data.id.isSome = true) := by simp [htype]
    simp only [h1, if_false, h2, htype, if_true, hid, Option.isSome_none,
      Bool.false_eq_true, false_and, if_false]
    cases sourceKeyOf raw with
    | none => simp
    | some k =>
      rcases h : alookup c k with _ | v
      · simp [h]
      · simp [h]

/-- A non-DFM message leaves no DFM cache entry for its source key behind. -/
theorem resolveSer_cache_nonDFM (cache : List (String × String)) (raw : RawMsg) (k : String)
    (htype : raw.data.type ≠ some "DFM")
    (hkey : sourceKeyOf raw = some k) :
    alookup (resolveSer cache raw).cache k = none := by
  have hres : (resolveSer cache raw).cache = evictNonDfm cache raw := by
    unfold resolveSer
    dsimp only
    rw [serStep_cache_nonDFM _ _ htype]
  rw [hres]
  unfold evictNonDfm
  rw [hkey]
  by_cases h : (alookup cache k).isSome
  · simp [htype, h]
  · simp only [ne_eq, htype, not_false_iff, h, and_false, if_false]
    exact Option.not_isSome_iff_eq_none.mp h

/-- The resolver cache is unchanged by a DFM message that carries no id. -/
theorem resolveSer_cache_dfm_noid (cache : List (String × String)) (raw : RawMsg)
    (htype : raw.data.type = some "DFM") (hid : raw.data.id = none) :
    (resolveSer cache raw).cache = cache := by
  have hev : evictNonDfm cache raw = cache := by
    unfold evictNonDfm
    cases sourceKeyOf raw with
    | none => rfl
    | some k => simp [htype]
  unfold resolveSer
  dsimp only
  rw [serStep_cache_dfm_noid _ _ htype hid, hev]

/-- The SondeHub leg emits at most one dispatch event and never a store. -/
theorem shEvents_cases (sh : Bool) (o : Radiosonda) :
    shEvents sh o = [] ∨ ∃ a b, shEvents sh o = [Event.sondehubDispatch a b] := by
  unfold shEvents
  split
  · rcases hg : get_sondehub_serial o with _ | serial
    · simp [hg]
    · rcases hf : o.frame with _ | f
      · simp [hg, hf]
      · right
        exact ⟨serial, pyInt f, by simp [hg, hf]⟩
  · left
    rfl

/-- A string of the form `D<digits>` is never empty. -/
theorem pyIsEmpty_dAppend (d : String) : pyIsEmpty ("D" ++ d) = false := by
  cases d with
  | mk l => rfl

/-- `D<digits>` equals the bare placeholder `D` exactly when the digit part
is empty. -/
theorem dAppend_eq_d_iff (d : String) : ("D" ++ d = "D") ↔ pyIsEmpty d = true := by
  cases d with
  | mk l =>
    cases l with
    | nil => constructor <;> intro h <;> rfl
    | cons c cs =>
      constructor
      · intro h
        have h2 : ("D" ++ String.mk (c :: cs)).data = ("D" : String).data :=
          congrArg String.data h
        simp at h2
      · intro h
        simp [pyIsEmpty] at h

theorem pyOrS_of_truthy (a b : Option String) (h : pyTruthyS a = true) :
    pyOrS a b = a := by
  simp [pyOrS, h]

theorem pyOrS_of_falsy (a b : Option String) (h : pyTruthyS a = false) :
    pyOrS a b = b := by
  simp [pyOrS, h]

theorem pyTruthyS_eq_true_iff (o : Option String) :
    pyTruthyS o = true ↔ ∃ s, o = some s ∧ pyIsEmpty s = false := by
  cases o with
  | none => simp [pyTruthyS]
  | some s => cases h : pyIsEmpty s <;> simp [pyTruthyS, h]

/-- With a truthy id field, the `or` chain for the source key always yields a
truthy key. -/
theorem sourceKey_truthy_of_id (raw : RawMsg) (i : String)
    (hid : raw.data.id = some i) (hi : pyIsEmpty i = false) :
    ∃ k, sourceKeyOf raw = some k ∧ pyIsEmpty k = false := by
  unfold sourceKeyOf
  rw [hid]
  by_cases h : pyTruthyS (pyOrS raw.source raw.data.rawid) = true
  · rcases (pyTruthyS_eq_true_iff _).mp h with ⟨t, ht, hte⟩
    refine ⟨t, ?_, hte⟩
    rw [pyOrS_of_truthy _ _ h, ht]
  · refine ⟨i, ?_, hi⟩
    rw [pyOrS_of_falsy _ _ (Bool.not_eq_true _ ▸ Bool.of_not_eq_true h)]

/-- `evictNonDfm` is the identity on DFM-typed messages. -/
theorem evictNonDfm_dfm (cache : List (String × String)) (raw : RawMsg)
    (htype : raw.data.type = some "DFM") : evictNonDfm cache raw = cache := by
  unfold evictNonDfm
  cases sourceKeyOf raw with
  | none => rfl
  | some k => simp [htype]

/-- The DFM branch of the priority chain on a message with a truthy id. -/
theorem serStep_dfm_id (c : List (String × String)) (raw : RawMsg) (i : String)
    (htype : raw.data.type = some "DFM")
    (haprsid : pyTruthyS raw.data.aprsid = false)
    (hid : raw.data.id = some i) (hi : pyIsEmpty i = false) :
    serStep c raw =
      (if pyTruthyS (sourceKeyOf raw) ∧ ("D" ++ dfmDigits i) ≠ "D" then
        (some ("D" ++ dfmDigits i),
         aset c ((sourceKeyOf raw).getD "") ("D" ++ dfmDigits i))
      else (some ("D" ++ dfmDigits i), c)) := by
  unfold serStep
  have hm20 : ¬(raw.data.type = some "M20" ∧ raw.data.rawid.isSome = true ∧
      raw.data.id.isSome = true) := by simp [htype]
  simp only [haprsid, Bool.false_eq_true, if_false, hm20, htype, if_true, hid,
    Option.isSome_some, true_and, Option.getD_some, pyTruthyS_some, hi,
    Bool.not_false]
  rw [if_neg (by simp)]

/-- The DFM branch of the priority chain with no id and a cached serial. -/
theorem serStep_dfm_cached (c : List (String × String)) (raw : RawMsg) (k v : String)
    (htype : raw.data.type = some "DFM")
    (haprsid : pyTruthyS raw.data.aprsid = false)
    (hid : raw.data.id = none) (hkey : sourceKeyOf raw = some k)
    (hv : alookup c k = some v) :
    serStep c raw = (some v, c) := by
  unfold serStep
  have hm20 : ¬(raw.data.type = some "M20" ∧ raw.data.rawid.isSome = true ∧
      raw.data.id.isSome = true) := by simp [htype]
  simp only [haprsid, Bool.false_eq_true, if_false, hm20, htype, if_true, hid,
    Option.isSome_none, false_and, hkey, hv]
  rw [if_neg (by simp)]

/-- The beacon sink rejects a placeholder serial before the telemetry send. -/
theorem aprsCore_placeholder (cfg : AprsCfg) (st2 : AprsState) (d : AprsData)
    (now : ℚ) (bd : Bool) (s : String)
    (hd : d.ser = some s) (hp : isPlaceholder s = true) :
    (aprsCore cfg st2 d now bd).2.telemetry = none := by
  unfold aprsCore
  simp only [hd]
  by_cases hs : pyIsEmpty s
  · simp [hs]
  · simp [hs, hp]

/-!  ## The claims  -/

/-- C1: for every incoming message whose resolved serial and vframe (the raw
millisecond timestamp) match an already-persisted record, the pipeline
classifies it as a duplicate and stops: no new record is stored and neither
the beacon sink's `send_telemetry` nor the aggregator sink's `send_telemetry`
is invoked; for every message with no such prior record, the record is
appended to the store before any sink dispatch. -/
theorem C1_dedup_gate (sh : Bool) (st : PipeState) (raw : RawMsg) (nowMs : ℤ) (s : String)
    (hmode : raw.mode = some "SONDE")
    (hser : (resolveSer st.dfm_id_cache raw).ser = some s)
    (hs : pyIsEmpty s = false)
    (hp : isPlaceholder s = false) :
    ((findDup st.db s (raw.timestamp.getD nowMs)).isSome →
      (onMessage sh st raw nowMs).1.db = st.db ∧ (onMessage sh st raw nowMs).2 = []) ∧
    (findDup st.db s (raw.timestamp.getD nowMs) = none →
      ∃ o tail, (onMessage sh st raw nowMs).1.db = o :: st.db ∧
        (onMessage sh st raw nowMs).2 = Event.stored o :: tail ∧
        ∀ e ∈ tail, ∀ o2, e ≠ Event.stored o2) := by
  constructor
  · intro hdup
    rw [onMessage_duplicate sh st raw nowMs s hmode hser hs hp hdup]
    exact ⟨rfl, rfl⟩
  · intro hdup
    rw [onMessage_accepted sh st raw nowMs s hmode hser hs hp hdup]
    refine ⟨_, _, rfl, rfl, ?_⟩
    intro e he o2
    rcases List.mem_cons.mp he with h | h
    · subst h
      simp
    · rcases shEvents_cases sh _ with hc | ⟨a, b, hc⟩
      · rw [hc] at h
        cases h
      · rw [hc] at h
        have := List.mem_singleton.mp h
        subst this
        simp

/-- Witness for C1 at a concrete RS41 message on the empty store. -/
theorem C1_dedup_gate_witness :
    ((findDup stInit.db "X1234567" (rawRS41.timestamp.getD 0)).isSome →
      (onMessage true stInit rawRS41 0).1.db = stInit.db ∧
      (onMessage true stInit rawRS41 0).2 = []) ∧
    (findDup stInit.db "X1234567" (rawRS41.timestamp.getD 0) = none →
      ∃ o tail, (onMessage true stInit rawRS41 0).1.db = o :: stInit.db ∧
        (onMessage true stInit rawRS41 0).2 = Event.stored o :: tail ∧
        ∀ e ∈ tail, ∀ o2, e ≠ Event.stored o2) :=
  C1_dedup_gate true stInit rawRS41 0 "X1234567" rfl (by decide) rfl (by decide)

/-- C3: a resolved serial whose lowercased stripped form is exactly `d`, or
starts with `d` and contains an `x`, is dropped as a placeholder: nothing is
persisted, no sink is dispatched, and the same rejection rule re-applied in
the beacon sink yields no telemetry transport. -/
theorem C3_placeholder_rejection (sh : Bool) (st : PipeState) (raw : RawMsg) (nowMs : ℤ)
    (s : String)
    (hser : (resolveSer st.dfm_id_cache raw).ser = some s)
    (hp : isPlaceholder s = true) :
    ((onMessage sh st raw nowMs).1.db = st.db ∧ (onMessage sh st raw nowMs).2 = []) ∧
    (∀ cfg connectOk ast d now, d.ser = some s →
      (aprsSendTelemetry cfg connectOk ast d now).2.telemetry = none) := by
  constructor
  · by_cases hmode : raw.mode = some "SONDE"
    · unfold onMessage
      rw [hmode]
      by_cases hs : pyIsEmpty s
      · simp [hser, pyTruthyS_some, hs]
      · simp [hser, pyTruthyS_some, hs, hp]
    · unfold onMessage
      simp [hmode]
  · intro cfg connectOk ast d now hd
    unfold aprsSendTelemetry
    split
    · rfl
    · split
      · rfl
      · dsimp only
        split
        · exact aprsCore_placeholder cfg _ d now true s hd hp
        · exact aprsCore_placeholder cfg _ d now false s hd hp

/-- Witness for C3: the all-x DFM mask resolves to `D` and is rejected by the
pipeline and by the beacon sink. -/
theorem C3_placeholder_rejection_witness :
    ((onMessage true stInit rawDfmMask 0).1.db = stInit.db ∧
     (onMessage true stInit rawDfmMask 0).2 = []) ∧
    (aprsSendTelemetry cfgAprs true stAprs { dataAprs with ser := some "D" } 100).2.telemetry
      = none :=
  ⟨(C3_placeholder_rejection true stInit rawDfmMask 0 "D" (by decide) (by decide)).1,
   (C3_placeholder_rejection true stInit rawDfmMask 0 "D" (by decide) (by decide)).2
     cfgAprs true stAprs _ 100 rfl⟩

/-- C5: processing a mode-SONDE message whose manufacturer type is not DFM
removes any cached DFM serial for the message's source key, so the cache can
no longer resolve to it. -/
theorem C5_cache_eviction (sh : Bool) (st : PipeState) (raw : RawMsg) (nowMs : ℤ) (k : String)
    (hmode : raw.mode = some "SONDE")
    (htype : raw.data.type ≠ some "DFM")
    (hkey : sourceKeyOf raw = some k) :
    alookup (onMessage sh st raw nowMs).1.dfm_id_cache k = none := by
  rw [onMessage_dfm_cache sh st raw nowMs hmode]
  exact resolveSer_cache_nonDFM st.dfm_id_cache raw k htype hkey

/-- Witness for C5: an RS41 message from source `abc` evicts the cached DFM
serial for `abc`. -/
theorem C5_cache_eviction_witness :
    alookup (onMessage true ⟨[("abc", "D091234")], [], []⟩ rawNonDfm 0).1.dfm_id_cache "abc"
      = none :=
  C5_cache_eviction true ⟨[("abc", "D091234")], [], []⟩ rawNonDfm 0 "abc" rfl
    (by decide) (by decide)

/-- C2: a DFM message with a non-empty id resolves to `D` followed by the
digits of the id, caching it under the message's source key unless the digit
string is empty (bare `D` is never cached, and the cache is then untouched);
a later DFM message from the same source key with no id field resolves to the
cached serial (and leaves the cache unchanged). -/
theorem C2_dfm_identity (cache : List (String × String)) (raw : RawMsg)
    (htype : raw.data.type = some "DFM")
    (haprsid : pyTruthyS raw.data.aprsid = false) :
    (∀ i, raw.data.id = some i → pyIsEmpty i = false →
      (resolveSer cache raw).ser = some ("D" ++ dfmDigits i) ∧
      ∃ k, sourceKeyOf raw = some k ∧
        (pyIsEmpty (dfmDigits i) = false →
          alookup (resolveSer cache raw).cache k = some ("D" ++ dfmDigits i)) ∧
        (pyIsEmpty (dfmDigits i) = true → (resolveSer cache raw).cache = cache)) ∧
    (∀ k v, raw.data.id = none → sourceKeyOf raw = some k →
      alookup cache k = some v → pyIsEmpty v = false →
      (resolveSer cache raw).ser = some v ∧ (resolveSer cache raw).cache = cache) := by
  constructor
  · intro i hid hi
    rcases sourceKey_truthy_of_id raw i hid hi with ⟨k, hkey, hke⟩
    have hstep := serStep_dfm_id (evictNonDfm cache raw) raw i htype haprsid hid hi
    rw [evictNonDfm_dfm cache raw htype] at hstep
    have hres : resolveSer cache raw =
        { ser := if pyTruthyS (serStep (evictNonDfm cache raw) raw).1 then
            (serStep (evictNonDfm cache raw) raw).1
          else pyOrS raw.data.id raw.source
          cache := (serStep (evictNonDfm cache raw) raw).2 } := rfl
    rw [evictNonDfm_dfm cache raw htype, hstep] at hres
    by_cases hcond : pyTruthyS (sourceKeyOf raw) = true ∧ ("D" ++ dfmDigits i) ≠ "D"
    · rw [if_pos hcond] at hres
      rw [hres]
      constructor
      · simp [pyTruthyS, pyIsEmpty_dAppend]
      · refine ⟨k, hkey, fun _ => ?_, fun hdig => ?_⟩
        · have : (sourceKeyOf raw).getD "" = k := by rw [hkey]; rfl
          simp only [this]
          exact alookup_aset_self cache k _
        · exact absurd ((dAppend_eq_d_iff _).mpr hdig) hcond.2
    · rw [if_neg hcond] at hres
      rw [hres]
      have htruthy : pyTruthyS (sourceKeyOf raw) = true := by
        rw [hkey, pyTruthyS_some, hke]
        rfl
      have hd : ("D" ++ dfmDigits i) = "D" := by
        by_contra hne
        exact hcond ⟨htruthy, hne⟩
      constructor
      · simp [pyTruthyS, pyIsEmpty_dAppend]
      · refine ⟨k, hkey, fun hdig => ?_, fun _ => rfl⟩
        rw [(dAppend_eq_d_iff _).mp hd] at hdig
        cases hdig
  · intro k v hid hkey hv hvne
    have hev := evictNonDfm_dfm cache raw htype
    have hstep := serStep_dfm_cached (evictNonDfm cache raw) raw k v htype haprsid hid hkey
      (by rw [hev]; exact hv)
    have hres : resolveSer cache raw =
        { ser := if pyTruthyS (serStep (evictNonDfm cache raw) raw).1 then
            (serStep (evictNonDfm cache raw) raw).1
          else pyOrS raw.data.id raw.source
          cache := (serStep (evictNonDfm cache raw) raw).2 } := rfl
    rw [hstep] at hres
    rw [hres]
    exact ⟨by simp [pyTruthyS_some, hvne], hev⟩

/-- Witness for C2: `DFM09-1234X` resolves to `D091234` and is cached under
source key `abc`; a later id-less DFM message from `abc` reuses it. -/
theorem C2_dfm_identity_witness :
    ((resolveSer [] rawDfmGood).ser = some ("D" ++ dfmDigits "DFM09-1234X") ∧
     ∃ k, sourceKeyOf rawDfmGood = some k ∧
       (pyIsEmpty (dfmDigits "DFM09-1234X") = false →
         alookup (resolveSer [] rawDfmGood).cache k =
           some ("D" ++ dfmDigits "DFM09-1234X")) ∧
       (pyIsEmpty (dfmDigits "DFM09-1234X") = true →
         (resolveSer [] rawDfmGood).cache = [])) ∧
    ((resolveSer [("abc", "D091234")] rawDfmNoId).ser = some "D091234" ∧
     (resolveSer [("abc", "D091234")] rawDfmNoId).cache = [("abc", "D091234")]) :=
  ⟨(C2_dfm_identity [] rawDfmGood rfl rfl).1 "DFM09-1234X" rfl rfl,
   (C2_dfm_identity [("abc", "D091234")] rawDfmNoId rfl rfl).2 "abc" "D091234"
     rfl (by decide) (by decide) rfl⟩

/-- With a cached frequency the entry reuses it and the cache is untouched. -/
theorem buildEntry_freq_cached (db : List Radiosonda) (fc : List (String × ℚ))
    (raw : RawMsg) (ser : String) (ts vf : ℤ) (F : ℚ)
    (hc : alookup fc ser = some F) :
    (buildEntry db fc raw ser ts vf).1.freq = some F ∧
    (buildEntry db fc raw ser ts vf).2 = fc := by
  unfold buildEntry
  dsimp only
  rw [hc]
  exact ⟨rfl, rfl⟩

/-- With no cached frequency the entry carries `freq_rx`, cached iff truthy. -/
theorem buildEntry_freq_fresh (db : List Radiosonda) (fc : List (String × ℚ))
    (raw : RawMsg) (ser : String) (ts vf : ℤ)
    (hc : alookup fc ser = none) :
    (buildEntry db fc raw ser ts vf).1.freq = freqRx raw ∧
    (buildEntry db fc raw ser ts vf).2 =
      (if pyTruthyQ (freqRx raw) then aset fc ser ((freqRx raw).getD 0) else fc) := by
  unfold buildEntry
  dsimp only
  rw [hc]
  by_cases ht : pyTruthyQ (freqRx raw)
  · simp only [ht, if_true]
    constructor <;> trivial
  · simp only [ht, Bool.false_eq_true, if_false]
    constructor <;> trivial

theorem pyTruthyQ_some_getD (o : Option ℚ) (h : pyTruthyQ o = true) :
    some (o.getD 0) = o := by
  cases o with
  | none => cases h
  | some q => rfl

/-- C4 counterexample: the first observed frequency for serial `RS999` is
present and `0`; it is persisted but NOT cached, so the next message for the
same serial with frequency absent persists no frequency rather than the
previously observed `0`.  This falsifies "the first non-absent carrier
frequency observed is cached ... a later message omitting frequency yields a
persisted observation with the previously observed frequency". -/
theorem C4_counterexample :
    rawFreqZero1.freq = some 0 ∧
    freqRx rawFreqZero2 = none ∧
    ((onMessage false stInit rawFreqZero1 0).1.db.head?.map Radiosonda.ser)
      = some "RS999" ∧
    ((onMessage false stInit rawFreqZero1 0).1.db.head?.map Radiosonda.freq)
      = some (some 0) ∧
    ((onMessage false (onMessage false stInit rawFreqZero1 0).1 rawFreqZero2 0).1.db.head?.map
        Radiosonda.ser) = some "RS999" ∧
    ((onMessage false (onMessage false stInit rawFreqZero1 0).1 rawFreqZero2 0).1.db.head?.map
        Radiosonda.freq) = some none := by
  decide

/-- C4 amended: frequency is sticky per serial over truthy (present and
nonzero) values: the first truthy frequency observed for a serial is cached,
every later accepted observation for that serial carries the cached value
(regardless of what the later message reports), and in particular a later
message omitting frequency persists the cached one; an absent-or-zero
frequency before any truthy one is persisted as reported and caches nothing. -/
theorem C4_sticky_frequency (sh : Bool) (st : PipeState) (raw : RawMsg) (nowMs : ℤ)
    (s : String) (F : ℚ)
    (hmode : raw.mode = some "SONDE")
    (hser : (resolveSer st.dfm_id_cache raw).ser = some s)
    (hs : pyIsEmpty s = false)
    (hp : isPlaceholder s = false)
    (hdup : findDup st.db s (raw.timestamp.getD nowMs) = none) :
    (alookup st.sonde_freq_cache s = some F →
      ∃ o tail, (onMessage sh st raw nowMs).2 = Event.stored o :: tail ∧
        o.freq = some F ∧
        alookup (onMessage sh st raw nowMs).1.sonde_freq_cache s = some F) ∧
    (alookup st.sonde_freq_cache s = none →
      ∃ o tail, (onMessage sh st raw nowMs).2 = Event.stored o :: tail ∧
        o.freq = freqRx raw ∧
        (pyTruthyQ (freqRx raw) = true →
          alookup (onMessage sh st raw nowMs).1.sonde_freq_cache s = freqRx raw) ∧
        (pyTruthyQ (freqRx raw) = false →
          (onMessage sh st raw nowMs).1.sonde_freq_cache = st.sonde_freq_cache)) := by
  rw [onMessage_accepted sh st raw nowMs s hmode hser hs hp hdup]
  constructor
  · intro hc
    rcases buildEntry_freq_cached st.db st.sonde_freq_cache raw s
      (Int.fdiv (raw.timestamp.getD nowMs) 1000) (raw.timestamp.getD nowMs) F hc
      with ⟨hfreq, hcache⟩
    refine ⟨_, _, rfl, hfreq, ?_⟩
    show alookup (buildEntry st.db st.sonde_freq_cache raw s
      (Int.fdiv (raw.timestamp.getD nowMs) 1000) (raw.timestamp.getD nowMs)).2 s = some F
    rw [hcache]
    exact hc
  · intro hc
    rcases buildEntry_freq_fresh st.db st.sonde_freq_cache raw s
      (Int.fdiv (raw.timestamp.getD nowMs) 1000) (raw.timestamp.getD nowMs) hc
      with ⟨hfreq, hcache⟩
    refine ⟨_, _, rfl, hfreq, ?_, ?_⟩
    · intro ht
      show alookup (buildEntry st.db st.sonde_freq_cache raw s
        (Int.fdiv (raw.timestamp.getD nowMs) 1000) (raw.timestamp.getD nowMs)).2 s
        = freqRx raw
      rw [hcache, if_pos ht, alookup_aset_self]
      exact pyTruthyQ_some_getD _ ht
    · intro ht
      show (buildEntry st.db st.sonde_freq_cache raw s
        (Int.fdiv (raw.timestamp.getD nowMs) 1000) (raw.timestamp.getD nowMs)).2
        = st.sonde_freq_cache
      rw [hcache, if_neg (by simp [ht])]

/-- Witness for the amended C4 at a concrete first observation with a truthy
frequency. -/
theorem C4_sticky_frequency_witness :
    ∃ o tail, (onMessage false stInit rawRS41 0).2 = Event.stored o :: tail ∧
      o.freq = freqRx rawRS41 ∧
      (pyTruthyQ (freqRx rawRS41) = true →
        alookup (onMessage false stInit rawRS41 0).1.sonde_freq_cache "X1234567"
          = freqRx rawRS41) ∧
      (pyTruthyQ (freqRx rawRS41) = false →
        (onMessage false stInit rawRS41 0).1.sonde_freq_cache = stInit.sonde_freq_cache) :=
  (C4_sticky_frequency false stInit rawRS41 0 "X1234567" 0 rfl (by decide) rfl
    (by decide) (by decide)).2 (by decide)

/-- C9 counterexample: a temperature that is present and exactly `0` is NOT
carried into the persisted observation — the `or` fallback chain treats `0`
as absent and the row stores no value.  This falsifies "a value that is
present and numeric — including zero — is carried into the persisted
observation unchanged". -/
theorem C9_counterexample :
    rawTempZero.data.temp = some 0 ∧
    rawTempZero.data.weather_temperature = none ∧
    ((onMessage false stInit rawTempZero 0).1.db.head?.map Radiosonda.ser)
      = some "RS998" ∧
    ((onMessage false stInit rawTempZero 0).1.db.head?.map Radiosonda.temp)
      = some none := by
  decide

/-- C9 amended: speed, climb and satellite count are carried unchanged when
present — including zero — modulo the documented conversion/rounding, and
absent inputs persist as an explicit no-value; temperature, humidity and
battery are carried unchanged only when nonzero, a present zero falling
through the `or` chain to the nested fallback (no-value when that is also
absent); frequency is governed by the sticky per-serial cache rather than
pass-through. -/
theorem C9_numeric_passthrough (db : List Radiosonda) (fc : List (String × ℚ))
    (raw : RawMsg) (ser : String) (ts vf : ℤ) :
    ((getOr raw.speed raw.data.vel_h = none →
        (buildEntry db fc raw ser ts vf).1.hs = none ∧
        (buildEntry db fc raw ser ts vf).1.speed = none) ∧
     (∀ v, getOr raw.speed raw.data.vel_h = some v →
        (buildEntry db fc raw ser ts vf).1.hs = some v ∧
        (buildEntry db fc raw ser ts vf).1.speed = some (pyRound1 (v / (18/5 : ℚ))))) ∧
    ((getOr raw.vspeed raw.data.vel_v = none →
        (buildEntry db fc raw ser ts vf).1.vs = none ∧
        (buildEntry db fc raw ser ts vf).1.climb = none) ∧
     (∀ v, getOr raw.vspeed raw.data.vel_v = some v →
        (buildEntry db fc raw ser ts vf).1.vs = some v ∧
        (buildEntry db fc raw ser ts vf).1.climb = some (pyRound1 v))) ∧
    ((getOr raw.sats raw.data.sats = none →
        (buildEntry db fc raw ser ts vf).1.sats = none) ∧
     (∀ v, getOr raw.sats raw.data.sats = some v →
        (buildEntry db fc raw ser ts vf).1.sats = some v)) ∧
    ((∀ t, raw.data.temp = some t → t ≠ 0 →
        (buildEntry db fc raw ser ts vf).1.temp = some t) ∧
     (raw.data.temp = none ∨ raw.data.temp = some 0 →
        (buildEntry db fc raw ser ts vf).1.temp = raw.data.weather_temperature)) ∧
    ((∀ h, raw.data.humidity = some h → h ≠ 0 →
        (buildEntry db fc raw ser ts vf).1.humidity = some h) ∧
     (raw.data.humidity = none ∨ raw.data.humidity = some 0 →
        (buildEntry db fc raw ser ts vf).1.humidity = raw.data.weather_humidity)) ∧
    ((∀ b, raw.data.batt = some b → b ≠ 0 →
        (buildEntry db fc raw ser ts vf).1.batt = some b) ∧
     (raw.data.batt = none ∨ raw.data.batt = some 0 →
        (buildEntry db fc raw ser ts vf).1.batt = raw.data.battery)) ∧
    ((∀ F, alookup fc ser = some F → (buildEntry db fc raw ser ts vf).1.freq = some F) ∧
     (alookup fc ser = none → (buildEntry db fc raw ser ts vf).1.freq = freqRx raw)) := by
  refine ⟨⟨?_, ?_⟩, ⟨?_, ?_⟩, ⟨?_, ?_⟩, ⟨?_, ?_⟩, ⟨?_, ?_⟩, ⟨?_, ?_⟩, ?_, ?_⟩
  · intro h
    constructor <;> simp [buildEntry, h]
  · intro v h
    constructor <;> simp [buildEntry, h]
  · intro h
    constructor <;> simp [buildEntry, h]
  · intro v h
    constructor <;> simp [buildEntry, h]
  · intro h
    simp [buildEntry, h]
  · intro v h
    simp [buildEntry, h]
  · intro t h htne
    simp [buildEntry, pyOrQ, pyTruthyQ, h, htne]
  · intro h
    rcases h with h | h <;> simp [buildEntry, pyOrQ, pyTruthyQ, h]
  · intro v h hvne
    simp [buildEntry, pyOrQ, pyTruthyQ, h, hvne]
  · intro h
    rcases h with h | h <;> simp [buildEntry, pyOrQ, pyTruthyQ, h]
  · intro v h hvne
    simp [buildEntry, pyOrQ, pyTruthyQ, h, hvne]
  · intro h
    rcases h with h | h <;> simp [buildEntry, pyOrQ, pyTruthyQ, h]
  · intro F h
    exact (buildEntry_freq_cached db fc raw ser ts vf F h).1
  · intro h
    exact (buildEntry_freq_fresh db fc raw ser ts vf h).1

/-- Witness for the amended C9: a present nonzero temperature is carried
unchanged, and an absent horizontal speed persists as no-value. -/
theorem C9_numeric_passthrough_witness :
    (buildEntry [] [] rawTempFive "RS998" 1 1000).1.temp = some 5 ∧
    (buildEntry [] [] rawRS41 "X1234567" 1700000000 1700000000000).1.hs = none :=
  ⟨(C9_numeric_passthrough [] [] rawTempFive "RS998" 1 1000).2.2.2.1.1 5 rfl
    (by norm_num),
   ((C9_numeric_passthrough [] [] rawRS41 "X1234567" 1700000000
      1700000000000).1.1 rfl).1⟩

/-- A rate-limited call reaches no telemetry transport and leaves the
per-serial timestamps unchanged. -/
theorem aprsCore_rate_limited (cfg : AprsCfg) (st2 : AprsState) (d : AprsData)
    (now : ℚ) (bd : Bool) (s : String) (t : ℚ)
    (hd : d.ser = some s)
    (hl : alookup st2.last_sent s = some t)
    (hw : now - t < cfg.interval) :
    (aprsCore cfg st2 d now bd).2.telemetry = none ∧
    (aprsCore cfg st2 d now bd).1.last_sent = st2.last_sent := by
  unfold aprsCore
  simp only [hd]
  by_cases hs : pyIsEmpty s
  · simp [hs]
  · by_cases hp : isPlaceholder s
    · simp [hs, hp]
    · simp only [hs, Bool.false_eq_true, if_false, hp]
      rcases hdir : d.dir with _ | dv
      · exact ⟨rfl, rfl⟩
      · dsimp only
        split
        · exact ⟨rfl, rfl⟩
        · rw [hl]
          simp only [Option.getD_some]
          rw [if_pos hw]
          exact ⟨rfl, rfl⟩

/-- Any call that reaches the telemetry transport first records `now` as the
serial's last-send timestamp. -/
theorem aprsCore_sent_updates (cfg : AprsCfg) (st2 : AprsState) (d : AprsData)
    (now : ℚ) (bd : Bool) (s : String)
    (hd : d.ser = some s)
    (hsent : (aprsCore cfg st2 d now bd).2.telemetry.isSome = true) :
    alookup (aprsCore cfg st2 d now bd).1.last_sent s = some now := by
  unfold aprsCore at hsent ⊢
  simp only [hd] at hsent ⊢
  by_cases hs : pyIsEmpty s
  · simp [hs] at hsent
  · by_cases hp : isPlaceholder s
    · simp [hs, hp] at hsent
    · simp only [hs, Bool.false_eq_true, if_false, hp] at hsent ⊢
      rcases hdir : d.dir with _ | dv
      · rw [hdir] at hsent
        simp at hsent
      · rw [hdir] at hsent
        dsimp only at hsent ⊢
        by_cases hln : d.lat = none ∨ d.lon = none ∨ d.alt = none ∨ d.time = none
        · rw [if_pos hln] at hsent
          simp at hsent
        · rw [if_neg hln] at hsent ⊢
          by_cases hgate : now - (alookup st2.last_sent s).getD 0 < cfg.interval
          · rw [if_pos hgate] at hsent
            simp at hsent
          · rw [if_neg hgate] at hsent ⊢
            rcases hsp : d.speed with _ | sp
            · simp only [hsp]
              exact alookup_aset_self st2.last_sent s now
            · simp only [hsp]
              rcases hcl : d.climb with _ | cl
              · simp only [hcl]
                exact alookup_aset_self st2.last_sent s now
              · simp only [hcl]
                rcases hfq : d.freq with _ | fq
                · simp only [hfq]
                  exact alookup_aset_self st2.last_sent s now
                · simp only [hfq]
                  exact alookup_aset_self st2.last_sent s now

/-- A `None` among dir / speed / climb / freq raises before the packet is
built: no telemetry is sent, the call errors, and the session is torn down. -/
theorem aprsCore_none_field (cfg : AprsCfg) (st2 : AprsState) (d : AprsData)
    (now : ℚ) (bd : Bool) (s : String)
    (hd : d.ser = some s) (hs : pyIsEmpty s = false) (hp : isPlaceholder s = false)
    (hln : ¬(d.lat = none ∨ d.lon = none ∨ d.alt = none ∨ d.time = none))
    (hgate : ¬(now - (alookup st2.last_sent s).getD 0 < cfg.interval))
    (hnone : d.dir = none ∨ d.speed = none ∨ d.climb = none ∨ d.freq = none) :
    (aprsCore cfg st2 d now bd).2.telemetry = none ∧
    (aprsCore cfg st2 d now bd).2.errored = true ∧
    (aprsCore cfg st2 d now bd).1.sock = false := by
  unfold aprsCore
  simp only [hd, hs, Bool.false_eq_true, if_false, hp]
  rcases hdir : d.dir with _ | dv
  · exact ⟨by trivial, by trivial, by trivial⟩
  · dsimp only
    rw [if_neg hln, if_neg hgate]
    have hdisj : d.speed = none ∨ d.climb = none ∨ d.freq = none := by
      rcases hnone with h | h
      · rw [hdir] at h
        cases h
      · exact h
    rcases hdisj with h | h | h
    · simp only [h]
      exact ⟨by trivial, by trivial, by trivial⟩
    · rcases hsp : d.speed with _ | sp
      · simp only [hsp]
        exact ⟨by trivial, by trivial, by trivial⟩
      · simp only [hsp, h]
        exact ⟨by trivial, by trivial, by trivial⟩
    · rcases hsp : d.speed with _ | sp
      · simp only [hsp]
        exact ⟨by trivial, by trivial, by trivial⟩
      · rcases hcl : d.climb with _ | cl
        · simp only [hsp, hcl]
          exact ⟨by trivial, by trivial, by trivial⟩
        · simp only [hsp, hcl, h]
          exact ⟨by trivial, by trivial, by trivial⟩

/-- C6: the beacon sink rate-limits telemetry per device serial: a
`send_telemetry` call arriving less than the configured interval (default
20 s) after the serial's recorded last-send timestamp performs no telemetry
transport and leaves the recorded timestamps unchanged (nothing is queued);
and any call that does send telemetry records its time as the serial's
last-send timestamp — so two sends for one serial are always at least one
interval apart. -/
theorem C6_rate_limit (cfg : AprsCfg) (connectOk : Bool) (st : AprsState)
    (d : AprsData) (now t : ℚ) (s : String)
    (hd : d.ser = some s)
    (hlast : alookup st.last_sent s = some t)
    (hwin : now - t < cfg.interval) :
    ((aprsSendTelemetry cfg connectOk st d now).2.telemetry = none ∧
     (aprsSendTelemetry cfg connectOk st d now).1.last_sent = st.last_sent) ∧
    (∀ st1 now1,
      (aprsSendTelemetry cfg connectOk st1 d now1).2.telemetry.isSome = true →
      alookup (aprsSendTelemetry cfg connectOk st1 d now1).1.last_sent s
        = some now1) := by
  constructor
  · unfold aprsSendTelemetry
    split
    · exact ⟨rfl, rfl⟩
    · split
      · exact ⟨rfl, rfl⟩
      · dsimp only
        split
        · exact aprsCore_rate_limited cfg _ d now true s t hd hlast hwin
        · exact aprsCore_rate_limited cfg _ d now false s t hd hlast hwin
  · intro st1 now1
    unfold aprsSendTelemetry
    split
    · intro hsent
      exact absurd hsent (by simp)
    · split
      · intro hsent
        exact absurd hsent (by simp)
      · dsimp only
        split
        · intro hsent
          exact aprsCore_sent_updates cfg _ d now1 true s hd hsent
        · intro hsent
          exact aprsCore_sent_updates cfg _ d now1 false s hd hsent

/-- Witness for C6: with a send recorded at 90 and interval 20, a call at 100
is silently dropped. -/
theorem C6_rate_limit_witness :
    ((aprsSendTelemetry cfgAprs true stAprsSent dataAprs 100).2.telemetry = none ∧
     (aprsSendTelemetry cfgAprs true stAprsSent dataAprs 100).1.last_sent
       = stAprsSent.last_sent) ∧
    (∀ st1 now1,
      (aprsSendTelemetry cfgAprs true st1 dataAprs now1).2.telemetry.isSome = true →
      alookup (aprsSendTelemetry cfgAprs true st1 dataAprs now1).1.last_sent "X1234567"
        = some now1) :=
  C6_rate_limit cfgAprs true stAprsSent dataAprs 100 90 "X1234567" rfl
    (by simp [stAprsSent, alookup]) (by norm_num [cfgAprs])

/-- C10: a beacon-sink call (upload on, session available, valid serial,
position and time present, rate limit passed) with any of dir, speed, climb
or freq present-but-`None` raises internally before the packet is built: no
telemetry is transmitted, and the handler closes and nulls the session. -/
theorem C10_none_field_teardown (cfg : AprsCfg) (connectOk : Bool) (st : AprsState)
    (d : AprsData) (now : ℚ) (s : String)
    (hu : cfg.upload = true)
    (hsc : st.sock = true ∨ connectOk = true)
    (hd : d.ser = some s)
    (hs : pyIsEmpty s = false)
    (hp : isPlaceholder s = false)
    (hln : ¬(d.lat = none ∨ d.lon = none ∨ d.alt = none ∨ d.time = none))
    (hgate : ¬(now - (alookup st.last_sent s).getD 0 < cfg.interval))
    (hnone : d.dir = none ∨ d.speed = none ∨ d.climb = none ∨ d.freq = none) :
    (aprsSendTelemetry cfg connectOk st d now).2.telemetry = none ∧
    (aprsSendTelemetry cfg connectOk st d now).2.errored = true ∧
    (aprsSendTelemetry cfg connectOk st d now).1.sock = false := by
  unfold aprsSendTelemetry
  rw [if_neg (by simp [hu])]
  rw [if_neg (by rcases hsc with h | h <;> simp [h])]
  dsimp only
  split
  · exact aprsCore_none_field cfg _ d now true s hd hs hp hln hgate hnone
  · exact aprsCore_none_field cfg _ d now false s hd hs hp hln hgate hnone

/-- Witness for C10: a healthy session is torn down by a `None` heading. -/
theorem C10_none_field_teardown_witness :
    (aprsSendTelemetry cfgAprs true stAprs { dataAprs with dir := none } 100).2.telemetry
      = none ∧
    (aprsSendTelemetry cfgAprs true stAprs { dataAprs with dir := none } 100).2.errored
      = true ∧
    (aprsSendTelemetry cfgAprs true stAprs { dataAprs with dir := none } 100).1.sock
      = false :=
  C10_none_field_teardown cfgAprs true stAprs { dataAprs with dir := none } 100
    "X1234567" rfl (Or.inl rfl) rfl rfl (by decide) (by decide)
    (by norm_num [stAprs, alookup, cfgAprs]) (Or.inl rfl)

/-- C7: the aggregator sink keeps one process-wide dedup set keyed by
`(serial, frame)`: a call with a pair already in the set returns before any
HTTP call (no batch is handed to the uploader, nothing changes); the set is
cleared wholesale when an insertion pushes it past the fixed capacity 5000
(full reset, not LRU); consequently the set's size stays bounded by 5000. -/
theorem C7_sondehub_dedup (st : SHState) (p : SHPacket) :
    ((p.serial, p.frame) ∈ st.recent → shSendTelemetry true st p = (st, none)) ∧
    (st.recent.card ≤ 5000 → (shSendTelemetry true st p).1.recent.card ≤ 5000) ∧
    ((p.serial, p.frame) ∉ st.recent →
      5000 < (insert (p.serial, p.frame) st.recent).card →
      (shSendTelemetry true st p).1.recent = ∅) := by
  refine ⟨?_, ?_, ?_⟩
  · intro hmem
    unfold shSendTelemetry
    simp [hmem]
  · intro hcard
    unfold shSendTelemetry
    by_cases hmem : (p.serial, p.frame) ∈ st.recent
    · simp [hmem, hcard]
    · simp only [hmem, if_false, if_true, not_true_eq_false, not_false_eq_true,
        ite_not, Bool.true_eq_false]
      by_cases hbig : 5000 < (insert (p.serial, p.frame) st.recent).card
      · split <;> simp [hbig]
      · have hle : (insert (p.serial, p.frame) st.recent).card ≤ 5000 :=
          Nat.le_of_not_lt hbig
        split <;> simp [hbig, hle]
  · intro hmem hbig
    unfold shSendTelemetry
    simp only [hmem, if_false, not_true_eq_false, not_false_eq_true, ite_not]
    split <;> simp [hbig]

/-- Witness for C7: an already-seen `(serial, frame)` pair is dropped with no
upload, and the dedup set stays within capacity. -/
theorem C7_sondehub_dedup_witness :
    (shSendTelemetry true ⟨{(some "X1", some 100)}, []⟩ ⟨some "X1", some 100⟩ =
      (⟨{(some "X1", some 100)}, []⟩, none)) ∧
    (shSendTelemetry true ⟨∅, []⟩ ⟨some "X1", some 100⟩).1.recent.card ≤ 5000 :=
  ⟨(C7_sondehub_dedup ⟨{(some "X1", some 100)}, []⟩ ⟨some "X1", some 100⟩).1
      (by decide),
   (C7_sondehub_dedup ⟨∅, []⟩ ⟨some "X1", some 100⟩).2.1 (by decide)⟩

/-- C8 counterexample: a telemetry batch whose HTTP attempt fails is NOT
retried — exactly one HTTP call is made and the batch is dropped with a
logged error; and a station upload answered 404 on its first attempt is NOT
retried either — it ends after one call with an error logged, despite a
budget of 3 attempts.  Both falsify "for every aggregator-sink upload
(telemetry batch and station descriptor alike), an HTTP failure is retried a
bounded number of times with immediate retry". -/
theorem C8_counterexample :
    (uploadTelemetryBatch HttpOutcome.exc).1 = 1 ∧
    (uploadTelemetryBatch HttpOutcome.exc).2 = TelemetryResult.exceptionLogged ∧
    ¬2 ≤ (uploadTelemetryBatch HttpOutcome.exc).1 ∧
    uploadStation 3 (fun _ => HttpOutcome.status 404)
      = (1, StationResult.unexpectedStatus 404) ∧
    ¬2 ≤ (uploadStation 3 (fun _ => HttpOutcome.status 404)).1 := by
  decide

/-- The station retry loop makes one HTTP call per remaining attempt. -/
theorem uploadStationGo_attempts_le (outcomes : ℕ → HttpOutcome) :
    ∀ fuel used, (uploadStationGo outcomes fuel used).1 ≤ used + fuel := by
  intro fuel
  induction fuel with
  | zero =>
    intro used
    simp [uploadStationGo]
  | succ n ih =>
    intro used
    unfold uploadStationGo
    rcases outcomes used with _ | c
    · calc (uploadStationGo outcomes n (used + 1)).1 ≤ used + 1 + n := ih (used + 1)
        _ = used + (n + 1) := by omega
    · dsimp only
      split
      · omega
      · split
        · calc (uploadStationGo outcomes n (used + 1)).1 ≤ used + 1 + n := ih (used + 1)
            _ = used + (n + 1) := by omega
        · omega

/-- Retriable failures consume one attempt each; a 200 then succeeds. -/
theorem uploadStationGo_succeeds (outcomes : ℕ → HttpOutcome) :
    ∀ fuel used k, k < fuel →
      (∀ j, j < k → isRetriable (outcomes (used + j)) = true) →
      outcomes (used + k) = HttpOutcome.status 200 →
      uploadStationGo outcomes fuel used = (used + k + 1, StationResult.uploaded) := by
  intro fuel
  induction fuel with
  | zero =>
    intro used k hk
    omega
  | succ n ih =>
    intro used k hk hfail hok
    cases k with
    | zero =>
      unfold uploadStationGo
      have h0 : outcomes used = HttpOutcome.status 200 := by simpa using hok
      rw [h0]
      simp
    | succ k2 =>
      have hr := hfail 0 (by omega)
      simp only [Nat.add_zero] at hr
      have hrec := ih (used + 1) k2 (by omega)
        (fun j hj => by
          have := hfail (j + 1) (by omega)
          simpa [Nat.add_assoc, Nat.add_comm 1 j] using this)
        (by
          have : used + 1 + k2 = used + (k2 + 1) := by omega
          rw [this]
          exact hok)
      unfold uploadStationGo
      rcases ho : outcomes used with _ | c
      · rw [hrec]
        have : used + 1 + k2 + 1 = used + (k2 + 1) + 1 := by omega
        rw [this]
      · rw [ho] at hr
        simp only [isRetriable, decide_eq_true_eq] at hr
        dsimp only
        rw [if_neg (by omega), if_pos hr, hrec]
        have : used + 1 + k2 + 1 = used + (k2 + 1) + 1 := by omega
        rw [this]

/-- When every attempt fails retriably the loop exhausts its budget. -/
theorem uploadStationGo_all_fail (outcomes : ℕ → HttpOutcome) :
    ∀ fuel used, (∀ j, j < fuel → isRetriable (outcomes (used + j)) = true) →
      uploadStationGo outcomes fuel used = (used + fuel, StationResult.failedAllRetries) := by
  intro fuel
  induction fuel with
  | zero =>
    intro used hfail
    simp [uploadStationGo]
  | succ n ih =>
    intro used hfail
    have hr := hfail 0 (by omega)
    simp only [Nat.add_zero] at hr
    have hrec := ih (used + 1)
      (fun j hj => by
        have := hfail (j + 1) (by omega)
        simpa [Nat.add_assoc, Nat.add_comm 1 j] using this)
    unfold uploadStationGo
    rcases ho : outcomes used with _ | c
    · rw [hrec]
      have : used + 1 + n = used + (n + 1) := by omega
      rw [this]
    · rw [ho] at hr
      simp only [isRetriable, decide_eq_true_eq] at hr
      dsimp only
      rw [if_neg (by omega), if_pos hr, hrec]
      have : used + 1 + n = used + (n + 1) := by omega
      rw [this]

/-- A non-200, non-5xx answer ends the station loop at once: the failure is
logged and nothing is retried. -/
theorem uploadStationGo_unexpected (outcomes : ℕ → HttpOutcome) :
    ∀ fuel used k c, k < fuel →
      (∀ j, j < k → isRetriable (outcomes (used + j)) = true) →
      outcomes (used + k) = HttpOutcome.status c → c ≠ 200 → c < 500 →
      uploadStationGo outcomes fuel used =
        (used + k + 1, StationResult.unexpectedStatus c) := by
  intro fuel
  induction fuel with
  | zero =>
    intro used k c hk
    omega
  | succ n ih =>
    intro used k c hk hfail hoc hc200 hc500
    cases k with
    | zero =>
      unfold uploadStationGo
      have h0 : outcomes used = HttpOutcome.status c := by simpa using hoc
      rw [h0]
      dsimp only
      rw [if_neg hc200, if_neg (by omega)]
    | succ k2 =>
      have hr := hfail 0 (by omega)
      simp only [Nat.add_zero] at hr
      have hrec := ih (used + 1) k2 c (by omega)
        (fun j hj => by
          have := hfail (j + 1) (by omega)
          simpa [Nat.add_assoc, Nat.add_comm 1 j] using this)
        (by
          have : used + 1 + k2 = used + (k2 + 1) := by omega
          rw [this]
          exact hoc) hc200 hc500
      unfold uploadStationGo
      rcases ho : outcomes used with _ | c2
      · rw [hrec]
        have : used + 1 + k2 + 1 = used + (k2 + 1) + 1 := by omega
        rw [this]
      · rw [ho] at hr
        simp only [isRetriable, decide_eq_true_eq] at hr
        dsimp only
        rw [if_neg (by omega), if_pos hr, hrec]
        have : used + 1 + k2 + 1 = used + (k2 + 1) + 1 := by omega
        rw [this]

/-- C8 amended: the station-descriptor upload retries immediately (no
backoff) on an exception or 5xx answer, up to the configured attempt budget:
`k` retriable failures followed by a 200 succeed after `k + 1` calls, the
number of HTTP calls never exceeds the budget, a fully failing schedule
exhausts the budget and is dropped with an error, and any other non-200
answer is dropped at once with an error and no retry; a telemetry batch, by
contrast, gets exactly one HTTP call whatever the outcome, its failure
logged and the batch dropped; neither path raises to the caller. -/
theorem C8_bounded_retries (retries k : ℕ) (outcomes : ℕ → HttpOutcome)
    (o : HttpOutcome)
    (hk : k < retries)
    (hfail : ∀ j, j < k → isRetriable (outcomes j) = true)
    (hok : outcomes k = HttpOutcome.status 200) :
    uploadStation retries outcomes = (k + 1, StationResult.uploaded) ∧
    (∀ os : ℕ → HttpOutcome, (uploadStation retries os).1 ≤ retries) ∧
    (∀ os : ℕ → HttpOutcome, (∀ j, j < retries → isRetriable (os j) = true) →
      uploadStation retries os = (retries, StationResult.failedAllRetries)) ∧
    (∀ (os : ℕ → HttpOutcome) (k2 c : ℕ), k2 < retries →
      (∀ j, j < k2 → isRetriable (os j) = true) →
      os k2 = HttpOutcome.status c → c ≠ 200 → c < 500 →
      uploadStation retries os = (k2 + 1, StationResult.unexpectedStatus c)) ∧
    (uploadTelemetryBatch o).1 = 1 := by
  refine ⟨?_, ?_, ?_, ?_, ?_⟩
  · have := uploadStationGo_succeeds outcomes retries 0 k hk
      (by simpa using hfail) (by simpa using hok)
    simpa [uploadStation] using this
  · intro os
    have := uploadStationGo_attempts_le os retries 0
    simpa [uploadStation] using this
  · intro os hfa
    have := uploadStationGo_all_fail os retries 0 (by simpa using hfa)
    simpa [uploadStation] using this
  · intro os k2 c hk2 hfa hoc hc200 hc500
    have := uploadStationGo_unexpected os retries 0 k2 c hk2 (by simpa using hfa)
      (by simpa using hoc) hc200 hc500
    simpa [uploadStation] using this
  · rcases o with _ | c
    · rfl
    · unfold uploadTelemetryBatch
      split
      · rfl
      · split <;> rfl

/-- Witness for the amended C8: retries 3, a 503 then a 200 — two calls and
success; plus the call bound, the exhaustion and immediate-drop behaviors,
and the single telemetry attempt. -/
theorem C8_bounded_retries_witness :
    uploadStation 3 outcomesW = (2, StationResult.uploaded) ∧
    (∀ os : ℕ → HttpOutcome, (uploadStation 3 os).1 ≤ 3) ∧
    (∀ os : ℕ → HttpOutcome, (∀ j, j < 3 → isRetriable (os j) = true) →
      uploadStation 3 os = (3, StationResult.failedAllRetries)) ∧
    (∀ (os : ℕ → HttpOutcome) (k2 c : ℕ), k2 < 3 →
      (∀ j, j < k2 → isRetriable (os j) = true) →
      os k2 = HttpOutcome.status c → c ≠ 200 → c < 500 →
      uploadStation 3 os = (k2 + 1, StationResult.unexpectedStatus c)) ∧
    (uploadTelemetryBatch HttpOutcome.exc).1 = 1 :=
  C8_bounded_retries 3 1 outcomesW HttpOutcome.exc (by decide) (by decide) (by decide)

end OwrxSonde
